import Mathlib

/-!
Verification of the `thrmt` random-matrix library (src/thrmt/api.py, src/thrmt/impl.py).

Two models are developed:

* a data-level model of the validation facade (`api.py`): each public entry
  point is embedded as a function from its (integer / rational / dtype / batch)
  arguments to `Except ApiError C`, where `C` records exactly the arguments the
  facade forwards to the underlying constructor in `impl.py`.  Randomness never
  enters this layer, so the embedding is total and executable.
* a matrix-level model of the constructors (`impl.py`): the external
  standard-normal sampler is an injected draw (a matrix argument), the external
  QR decomposition is an injected oracle, and the remaining linear algebra
  (transpose, conjugate transpose, product, inverse) is Mathlib's.  Sizes the
  constructors receive are natural numbers, matrices live over `ℝ` or `ℂ`.

`auxiliary.py` (the `check_size` / `check_sigma` / `check_dtype` predicates) and
`types.py` (the dtype families) are not present under `src/`; those definitions
are modelled from the spec and are marked as such in their doc comments.
-/

namespace Thrmt

/-- Concrete dtypes: the two real precisions and the two complex precisions the
spec's realness families range over (`types.py` is absent from `src/`). -/
inductive Dtype
  | float32
  | float64
  | complex64
  | complex128
  deriving DecidableEq

/-- Modelled from the spec: the real dtype family of `src/thrmt/types.py`
(file absent from `src/`): "single vs. double real". -/
def real_dtypes : List Dtype := [Dtype.float32, Dtype.float64]

/-- Modelled from the spec: the complex dtype family of `src/thrmt/types.py`
(file absent from `src/`): "single vs. double complex". -/
def complex_dtypes : List Dtype := [Dtype.complex64, Dtype.complex128]

/-- The spec's validation-error taxonomy (§7): the three precondition
violations the facade's checks report. -/
inductive ApiError
  | invalidDimension
  | invalidScale
  | invalidDtype
  deriving DecidableEq

/-- Errors that can reach a caller of the library: a validation error raised by
one of the `check_*` predicates, the error the external linear-algebra backend
raises when asked to invert a singular matrix, and the error the external
sampler raises when handed a negative dimension. -/
inductive PyError
  | valueError (e : ApiError)
  | linAlgError
  | runtimeError
  deriving DecidableEq

/-- Modelled from the spec: `check_size` of `src/thrmt/auxiliary.py` (file
absent from `src/`).  Per §4.6 and §7, a declared dimension `< 1` is rejected
with an `InvalidDimension` error before any sampling. -/
def check_size (size : ℤ) : Except ApiError Unit :=
  if size < 1 then Except.error ApiError.invalidDimension else Except.ok ()

/-- Modelled from the spec: `check_sigma` of `src/thrmt/auxiliary.py` (file
absent from `src/`).  Per §4.6 and §7, `sigma ≤ 0` is rejected with an
`InvalidScale` error.  Scales are modelled as rationals (floats are
rationals). -/
def check_sigma (sigma : ℚ) : Except ApiError Unit :=
  if sigma ≤ 0 then Except.error ApiError.invalidScale else Except.ok ()

/-- Modelled from the spec: `check_dtype` of `src/thrmt/auxiliary.py` (file
absent from `src/`).  Per §4.6 and §7, a dtype outside the required realness
family is rejected with an `InvalidDtype` error. -/
def check_dtype (dtype : Dtype) (family : List Dtype) : Except ApiError Unit :=
  if dtype ∈ family then Except.ok () else Except.error ApiError.invalidDtype

/-- The `if size_m is not None: check_size(size_m)` guard the facade applies
to each optional secondary dimension (src/thrmt/api.py:203-204, 241-242,
279-282, 319-323): a supplied value is validated, an omitted one is not. -/
def check_opt_size (m : Option ℤ) : Except ApiError Unit :=
  match m with
  | some v => check_size v
  | none => Except.ok ()

/-- The arguments `api.random_cue` / `api.random_coe` forward to the
corresponding constructor in `impl.py`. -/
structure CueCall where
  size : ℤ
  dtype : Dtype
  batch_shape : List ℤ
  deriving DecidableEq

/-- The arguments `api.random_gue` / `api.random_goe` forward to the
corresponding constructor in `impl.py`. -/
structure GueCall where
  size : ℤ
  sigma : ℚ
  dtype : Dtype
  batch_shape : List ℤ
  deriving DecidableEq

/-- The arguments `api.random_wre` / `api.random_wce` forward to the
corresponding constructor in `impl.py`.  `size_m` is forwarded as the optional
value the caller supplied. -/
structure WreCall where
  size_n : ℤ
  sigma : ℚ
  size_m : Option ℤ
  dtype : Dtype
  batch_shape : List ℤ
  deriving DecidableEq

/-- The arguments `api.random_jre` / `api.random_jce` forward to the
corresponding constructor in `impl.py`.  `size_m1` and `size_m2` are forwarded
as the optional values the caller supplied. -/
structure JreCall where
  size_n : ℤ
  size_m1 : Option ℤ
  size_m2 : Option ℤ
  dtype : Dtype
  batch_shape : List ℤ
  deriving DecidableEq

namespace api

/-- `api.random_cue` (src/thrmt/api.py:44-76): `check_size`, then
`check_dtype` against the complex family, then `bs = () if batch_shape is None
else batch_shape`, then delegate to `impl.random_cue`. -/
def random_cue (size : ℤ) (dtype : Dtype) (batch_shape : Option (List ℤ)) :
    Except ApiError CueCall := do
  check_size size
  check_dtype dtype complex_dtypes
  let bs := batch_shape.getD []
  pure ⟨size, dtype, bs⟩

/-- `api.random_coe` (src/thrmt/api.py:79-104): same checks as `random_cue`,
delegating to `impl.random_coe`. -/
def random_coe (size : ℤ) (dtype : Dtype) (batch_shape : Option (List ℤ)) :
    Except ApiError CueCall := do
  check_size size
  check_dtype dtype complex_dtypes
  let bs := batch_shape.getD []
  pure ⟨size, dtype, bs⟩

/-- `api.random_gue` (src/thrmt/api.py:107-137): `check_size`, `check_dtype`
against the complex family, `check_sigma`, then delegate. -/
def random_gue (size : ℤ) (sigma : ℚ) (dtype : Dtype)
    (batch_shape : Option (List ℤ)) : Except ApiError GueCall := do
  check_size size
  check_dtype dtype complex_dtypes
  check_sigma sigma
  let bs := batch_shape.getD []
  pure ⟨size, sigma, dtype, bs⟩

/-- `api.random_goe` (src/thrmt/api.py:140-170): `check_size`, `check_dtype`
against the real family, `check_sigma`, then delegate. -/
def random_goe (size : ℤ) (sigma : ℚ) (dtype : Dtype)
    (batch_shape : Option (List ℤ)) : Except ApiError GueCall := do
  check_size size
  check_dtype dtype real_dtypes
  check_sigma sigma
  let bs := batch_shape.getD []
  pure ⟨size, sigma, dtype, bs⟩

/-- `api.random_wre` (src/thrmt/api.py:173-208): `check_size size_n`,
`check_sigma`, `check_size size_m` only when `size_m` was supplied, then
delegate, forwarding `size_m` as given (no dtype check appears in the
source). -/
def random_wre (size_n : ℤ) (sigma : ℚ) (size_m : Option ℤ) (dtype : Dtype)
    (batch_shape : Option (List ℤ)) : Except ApiError WreCall := do
  check_size size_n
  check_sigma sigma
  check_opt_size size_m
  let bs := batch_shape.getD []
  pure ⟨size_n, sigma, size_m, dtype, bs⟩

/-- `api.random_wce` (src/thrmt/api.py:211-246): same checks as `random_wre`
(no dtype check appears in the source), delegating to `impl.random_wce`. -/
def random_wce (size_n : ℤ) (sigma : ℚ) (size_m : Option ℤ) (dtype : Dtype)
    (batch_shape : Option (List ℤ)) : Except ApiError WreCall := do
  check_size size_n
  check_sigma sigma
  check_opt_size size_m
  let bs := batch_shape.getD []
  pure ⟨size_n, sigma, size_m, dtype, bs⟩

/-- `api.random_jre` (src/thrmt/api.py:250-287): `check_size size_n`,
`check_size` on each supplied optional dimension, `check_dtype` against the
real family, then delegate, forwarding `size_m1` / `size_m2` as given. -/
def random_jre (size_n : ℤ) (size_m1 size_m2 : Option ℤ) (dtype : Dtype)
    (batch_shape : Option (List ℤ)) : Except ApiError JreCall := do
  check_size size_n
  check_opt_size size_m1
  check_opt_size size_m2
  check_dtype dtype real_dtypes
  let bs := batch_shape.getD []
  pure ⟨size_n, size_m1, size_m2, dtype, bs⟩

/-- `api.random_jce` (src/thrmt/api.py:290-328): same as `random_jre` with the
complex family. -/
def random_jce (size_n : ℤ) (size_m1 size_m2 : Option ℤ) (dtype : Dtype)
    (batch_shape : Option (List ℤ)) : Except ApiError JreCall := do
  check_size size_n
  check_opt_size size_m1
  check_opt_size size_m2
  check_dtype dtype complex_dtypes
  let bs := batch_shape.getD []
  pure ⟨size_n, size_m1, size_m2, dtype, bs⟩

end api

open Matrix ComplexOrder

namespace impl

/-- The `size_m or size_n` default resolution Python performs INSIDE the
constructors (src/thrmt/impl.py:125, 141, 157-158, 178-179): `None` and `0`
are falsy and fall back to the primary dimension; any other value is kept. -/
def actual_size (m : Option ℕ) (n : ℕ) : ℕ :=
  match m with
  | none => n
  | some v => if v = 0 then n else v

/-- `impl.random_gre` (src/thrmt/impl.py:31-41) with the `torch.randn` draw
injected as the argument `x`: divide by `sqrt(size)` when `nnorm`, otherwise
return the draw untouched.  No validation of `size` appears in the source. -/
noncomputable def random_gre (n : ℕ) (nnorm : Bool)
    (x : Matrix (Fin n) (Fin n) ℝ) : Matrix (Fin n) (Fin n) ℝ :=
  if nnorm then (Real.sqrt n)⁻¹ • x else x

/-- `impl.random_gce` (src/thrmt/impl.py:44-60) with the draw injected:
`if nnorm and (not cnorm): x /= sqrt(size / 2)`; otherwise divide by
`sqrt(size)` when `nnorm` and then multiply by `sqrt(2)` when `not cnorm`. -/
noncomputable def random_gce (n : ℕ) (nnorm cnorm : Bool)
    (x : Matrix (Fin n) (Fin n) ℂ) : Matrix (Fin n) (Fin n) ℂ :=
  if nnorm ∧ ¬cnorm then
    (((Real.sqrt ((n : ℝ) / 2) : ℝ) : ℂ))⁻¹ • x
  else
    let x1 := if nnorm then (((Real.sqrt (n : ℝ) : ℝ) : ℂ))⁻¹ • x else x
    if ¬cnorm then ((Real.sqrt 2 : ℝ) : ℂ) • x1 else x1

/-- `impl.random_cue` (src/thrmt/impl.py:63-74): take a complex Ginibre draw
with the default normalization flags, run the external QR oracle on it, and
right-multiply `q` by the diagonal matrix of unit-modulus phases
`d / th.abs(d)` of the diagonal `d` of `r`. -/
noncomputable def random_cue (n : ℕ)
    (qr : Matrix (Fin n) (Fin n) ℂ → Matrix (Fin n) (Fin n) ℂ × Matrix (Fin n) (Fin n) ℂ)
    (draw : Matrix (Fin n) (Fin n) ℂ) : Matrix (Fin n) (Fin n) ℂ :=
  let a := random_gce n false true draw
  let q := (qr a).1
  let r := (qr a).2
  let d : Fin n → ℂ := fun i => r i i
  q * Matrix.diagonal (fun i => d i / (Complex.abs (d i) : ℂ))

/-- `impl.random_coe` (src/thrmt/impl.py:77-86): a CUE draw `x`, returned as
`x.transpose(-2, -1) @ x` (plain transpose, no conjugation). -/
noncomputable def random_coe (n : ℕ)
    (qr : Matrix (Fin n) (Fin n) ℂ → Matrix (Fin n) (Fin n) ℂ × Matrix (Fin n) (Fin n) ℂ)
    (draw : Matrix (Fin n) (Fin n) ℂ) : Matrix (Fin n) (Fin n) ℂ :=
  let x := random_cue n qr draw
  xᵀ * x

/-- `impl.random_gue` (src/thrmt/impl.py:89-100): a default complex Ginibre
draw scaled by `sigma`, symmetrized as `(x + x.transpose(-2,-1).conj()) / sqrt(2)`. -/
noncomputable def random_gue (n : ℕ) (sigma : ℝ)
    (draw : Matrix (Fin n) (Fin n) ℂ) : Matrix (Fin n) (Fin n) ℂ :=
  let x := (sigma : ℂ) • random_gce n false true draw
  (((Real.sqrt 2 : ℝ) : ℂ))⁻¹ • (x + xᴴ)

/-- `impl.random_goe` (src/thrmt/impl.py:103-114): a real Ginibre draw scaled
by `sigma`, symmetrized as `(x + x.transpose(-2,-1)) / sqrt(2)`. -/
noncomputable def random_goe (n : ℕ) (sigma : ℝ)
    (draw : Matrix (Fin n) (Fin n) ℝ) : Matrix (Fin n) (Fin n) ℝ :=
  let x := sigma • random_gre n false draw
  (Real.sqrt 2)⁻¹ • (x + xᵀ)

/-- `impl.random_wre` (src/thrmt/impl.py:117-131): resolve
`actual_size_m = size_m or size_n`, draw `x` of shape `n × actual_size_m`
(injected, a function of the resolved column count), scale by `sigma`, and
return `x @ x.transpose(-2, -1)`. -/
noncomputable def random_wre (n : ℕ) (sigma : ℝ) (size_m : Option ℕ)
    (draw : (m : ℕ) → Matrix (Fin n) (Fin m) ℝ) : Matrix (Fin n) (Fin n) ℝ :=
  let m := actual_size size_m n
  let x := sigma • draw m
  x * xᵀ

/-- `impl.random_wce` (src/thrmt/impl.py:133-146): like `random_wre` but
complex, returning `x @ x.transpose(-2, -1).conj()`. -/
noncomputable def random_wce (n : ℕ) (sigma : ℝ) (size_m : Option ℕ)
    (draw : (m : ℕ) → Matrix (Fin n) (Fin m) ℂ) : Matrix (Fin n) (Fin n) ℂ :=
  let m := actual_size size_m n
  let x := (sigma : ℂ) • draw m
  x * xᴴ

/-- The external `torch.linalg.inv` collaborator: on a singular matrix it
raises (`LinAlgError`); otherwise it returns the inverse. -/
noncomputable def linalg_inv {K : Type} [Field K] {n : ℕ}
    (M : Matrix (Fin n) (Fin n) K) : Except PyError (Matrix (Fin n) (Fin n) K) :=
  letI : Decidable (M.det = 0) := Classical.dec _
  if M.det = 0 then Except.error PyError.linAlgError else Except.ok M⁻¹

/-- The local `a1 = x @ x.transpose(-2, -1)` of `impl.random_jre`
(src/thrmt/impl.py:159-162). -/
noncomputable def jre_a1 (n : ℕ) (size_m1 : Option ℕ)
    (drawX : (m : ℕ) → Matrix (Fin n) (Fin m) ℝ) : Matrix (Fin n) (Fin n) ℝ :=
  let x := drawX (actual_size size_m1 n)
  x * xᵀ

/-- The local `a2 = a1 + y @ y.transpose(-2, -1)` of `impl.random_jre`
(src/thrmt/impl.py:163-166). -/
noncomputable def jre_a2 (n : ℕ) (size_m1 size_m2 : Option ℕ)
    (drawX drawY : (m : ℕ) → Matrix (Fin n) (Fin m) ℝ) : Matrix (Fin n) (Fin n) ℝ :=
  let y := drawY (actual_size size_m2 n)
  jre_a1 n size_m1 drawX + y * yᵀ

/-- `impl.random_jre` (src/thrmt/impl.py:149-167): form `a1` and `a2` from two
independent injected draws and return `a1 @ th.linalg.inv(a2)`; a failure of
the inversion propagates (nothing in the source catches it). -/
noncomputable def random_jre (n : ℕ) (size_m1 size_m2 : Option ℕ)
    (drawX drawY : (m : ℕ) → Matrix (Fin n) (Fin m) ℝ) :
    Except PyError (Matrix (Fin n) (Fin n) ℝ) :=
  (linalg_inv (jre_a2 n size_m1 size_m2 drawX drawY)).map
    (fun inv2 => jre_a1 n size_m1 drawX * inv2)

/-- The local `a1 = x @ x.transpose(-2, -1).conj()` of `impl.random_jce`
(src/thrmt/impl.py:180-183). -/
noncomputable def jce_a1 (n : ℕ) (size_m1 : Option ℕ)
    (drawX : (m : ℕ) → Matrix (Fin n) (Fin m) ℂ) : Matrix (Fin n) (Fin n) ℂ :=
  let x := drawX (actual_size size_m1 n)
  x * xᴴ

/-- The local `a2 = a1 + y @ y.transpose(-2, -1).conj()` of `impl.random_jce`
(src/thrmt/impl.py:184-187). -/
noncomputable def jce_a2 (n : ℕ) (size_m1 size_m2 : Option ℕ)
    (drawX drawY : (m : ℕ) → Matrix (Fin n) (Fin m) ℂ) : Matrix (Fin n) (Fin n) ℂ :=
  let y := drawY (actual_size size_m2 n)
  jce_a1 n size_m1 drawX + y * yᴴ

/-- `impl.random_jce` (src/thrmt/impl.py:170-188): complex analogue of
`random_jre`. -/
noncomputable def random_jce (n : ℕ) (size_m1 size_m2 : Option ℕ)
    (drawX drawY : (m : ℕ) → Matrix (Fin n) (Fin m) ℂ) :
    Except PyError (Matrix (Fin n) (Fin n) ℂ) :=
  (linalg_inv (jce_a2 n size_m1 size_m2 drawX drawY)).map
    (fun inv2 => jce_a1 n size_m1 drawX * inv2)

/-- Shape semantics of the external `torch.randn` sampler: a request succeeds
exactly when every requested dimension is nonnegative (a zero dimension yields
an empty tensor; a negative one raises a `RuntimeError`). -/
def randn_ok (shape : List ℤ) : Bool := shape.all (fun d => 0 ≤ d)

/-- Shape-level `impl.random_gre` (src/thrmt/impl.py:31-41): the function body
performs no validation of `size`; its only failure mode is the
`th.randn(*batch_shape, size, size)` call itself.  The result records the
shape handed to the sampler. -/
def random_gre_shape (size : ℤ) (batch_shape : List ℤ) : Except PyError (List ℤ) :=
  let shape := batch_shape ++ [size, size]
  if randn_ok shape then Except.ok shape else Except.error PyError.runtimeError

/-- Shape-level `impl.random_gce` (src/thrmt/impl.py:44-60): identical
sampler call and, again, no validation of `size`. -/
def random_gce_shape (size : ℤ) (batch_shape : List ℤ) : Except PyError (List ℤ) :=
  let shape := batch_shape ++ [size, size]
  if randn_ok shape then Except.ok shape else Except.error PyError.runtimeError

end impl

/-! Helper lemmas shared by several developments. -/

theorem check_size_ok {n : ℤ} (h : 1 ≤ n) : check_size n = Except.ok () := by
  unfold check_size
  rw [if_neg (by omega)]

theorem check_size_err {n : ℤ} (h : n < 1) :
    check_size n = Except.error ApiError.invalidDimension := by
  unfold check_size
  rw [if_pos h]

theorem check_sigma_ok {s : ℚ} (h : 0 < s) : check_sigma s = Except.ok () := by
  unfold check_sigma
  rw [if_neg (not_le.mpr h)]

theorem check_dtype_ok {d : Dtype} {fam : List Dtype} (h : d ∈ fam) :
    check_dtype d fam = Except.ok () := by
  unfold check_dtype
  rw [if_pos h]

theorem check_dtype_err {d : Dtype} {fam : List Dtype} (h : d ∉ fam) :
    check_dtype d fam = Except.error ApiError.invalidDtype := by
  unfold check_dtype
  rw [if_neg h]

theorem check_opt_size_ok {m : Option ℤ} (h : ∀ v, m = some v → 1 ≤ v) :
    check_opt_size m = Except.ok () := by
  cases m with
  | none => rfl
  | some v => exact check_size_ok (h v rfl)

theorem gce_default_id (n : ℕ) (x : Matrix (Fin n) (Fin n) ℂ) :
    impl.random_gce n false true x = x := by
  simp [impl.random_gce]

/-- C1: for every size, `impl.random_cue` leaves the complex Ginibre draw
unscaled (default normalization flags), obtains `(q, r)` from the QR oracle,
and returns `q * diag(r_ii / |r_ii|)`; entrywise, column `j` of `q` is
multiplied by the unit-modulus phase of the `j`-th diagonal entry of `r`. -/
theorem cue_is_qr_phase_correction (n : ℕ)
    (qr : Matrix (Fin n) (Fin n) ℂ → Matrix (Fin n) (Fin n) ℂ × Matrix (Fin n) (Fin n) ℂ)
    (a : Matrix (Fin n) (Fin n) ℂ) :
    impl.random_cue n qr a =
      (qr a).1 *
        Matrix.diagonal (fun i => (qr a).2 i i / (Complex.abs ((qr a).2 i i) : ℂ)) ∧
    ∀ i j, impl.random_cue n qr a i j =
      (qr a).1 i j * ((qr a).2 j j / (Complex.abs ((qr a).2 j j) : ℂ)) := by
  have hd : impl.random_cue n qr a =
      (qr a).1 *
        Matrix.diagonal (fun i => (qr a).2 i i / (Complex.abs ((qr a).2 i i) : ℂ)) := by
    unfold impl.random_cue
    rw [gce_default_id]
  refine ⟨hd, fun i j => ?_⟩
  rw [hd, Matrix.mul_diagonal]

/-- C2 (amended): the four-state normalization table actually implemented by
`impl.random_gce`: `(nnorm, cnorm) = (false, false)` scales by `sqrt 2`
(not "no scaling" as claimed), `(false, true)` is the identity,
`(true, false)` scales by `sqrt 2 / sqrt size` and `(true, true)` by
`1 / sqrt size`. -/
theorem gce_normalization_table (n : ℕ) (x : Matrix (Fin n) (Fin n) ℂ) :
    impl.random_gce n false false x = ((Real.sqrt 2 : ℝ) : ℂ) • x ∧
    impl.random_gce n false true x = x ∧
    impl.random_gce n true false x =
      ((Real.sqrt 2 / Real.sqrt (n : ℝ) : ℝ) : ℂ) • x ∧
    impl.random_gce n true true x = (((Real.sqrt (n : ℝ))⁻¹ : ℝ) : ℂ) • x := by
  refine ⟨by simp [impl.random_gce], gce_default_id n x, ?_, by simp [impl.random_gce]⟩
  unfold impl.random_gce
  rw [if_pos (show ((true : Bool) : Prop) ∧ ¬((false : Bool) : Prop) by simp)]
  have hs : Real.sqrt ((n : ℝ) / 2) = Real.sqrt (n : ℝ) / Real.sqrt 2 :=
    Real.sqrt_div (by positivity) 2
  rw [hs]
  rw [← Complex.ofReal_inv, inv_div]

/-- C2 (counterexample): with `(nnorm, cnorm) = (false, false)` the draw is
not returned unscaled: on the all-ones 1×1 matrix the code multiplies by
`sqrt 2`. -/
theorem gce_ff_no_scaling_counterexample :
    impl.random_gce 1 false false 1 ≠ (1 : Matrix (Fin 1) (Fin 1) ℂ) := by
  intro h
  have hval : impl.random_gce 1 false false 1 =
      ((Real.sqrt 2 : ℝ) : ℂ) • (1 : Matrix (Fin 1) (Fin 1) ℂ) := by
    simp [impl.random_gce]
  rw [hval] at h
  have h00 := congrFun (congrFun h 0) 0
  simp [Matrix.smul_apply, Matrix.one_apply] at h00

/-- C7: for all sizes, optional `size_m` and `sigma`, the Wishart constructors
return the Gram matrix of the sigma-scaled draw — `x * xᵀ` for WRE and
`x * xᴴ` for WCE — an `n × n` positive-semidefinite matrix (the result type is
square in `size_n` regardless of `size_m`). -/
theorem wishart_gram_psd (n : ℕ) (sigma : ℝ) (size_m : Option ℕ)
    (drawR : (m : ℕ) → Matrix (Fin n) (Fin m) ℝ)
    (drawC : (m : ℕ) → Matrix (Fin n) (Fin m) ℂ) :
    impl.random_wre n sigma size_m drawR =
      (sigma • drawR (impl.actual_size size_m n)) *
        (sigma • drawR (impl.actual_size size_m n))ᵀ ∧
    (impl.random_wre n sigma size_m drawR).PosSemidef ∧
    impl.random_wce n sigma size_m drawC =
      ((sigma : ℂ) • drawC (impl.actual_size size_m n)) *
        ((sigma : ℂ) • drawC (impl.actual_size size_m n))ᴴ ∧
    (impl.random_wce n sigma size_m drawC).PosSemidef := by
  refine ⟨rfl, ?_, rfl, ?_⟩
  · show ((sigma • drawR (impl.actual_size size_m n)) *
      (sigma • drawR (impl.actual_size size_m n))ᵀ).PosSemidef
    rw [← Matrix.conjTranspose_eq_transpose_of_trivial]
    exact Matrix.posSemidef_self_mul_conjTranspose _
  · exact Matrix.posSemidef_self_mul_conjTranspose _

/-- C8: for every size, a COE sample is `xᵀ * x` for the CUE draw `x` it is
built from (plain transpose, no conjugation), and is complex-symmetric:
equal to its own plain transpose. -/
theorem coe_transpose_product_symmetric (n : ℕ)
    (qr : Matrix (Fin n) (Fin n) ℂ → Matrix (Fin n) (Fin n) ℂ × Matrix (Fin n) (Fin n) ℂ)
    (draw : Matrix (Fin n) (Fin n) ℂ) :
    impl.random_coe n qr draw =
      (impl.random_cue n qr draw)ᵀ * impl.random_cue n qr draw ∧
    (impl.random_coe n qr draw)ᵀ = impl.random_coe n qr draw := by
  refine ⟨rfl, ?_⟩
  show ((impl.random_cue n qr draw)ᵀ * impl.random_cue n qr draw)ᵀ =
    (impl.random_cue n qr draw)ᵀ * impl.random_cue n qr draw
  rw [Matrix.transpose_mul, Matrix.transpose_transpose]

/-- C9: a GUE sample equals its own conjugate transpose (Hermitian) and a GOE
sample equals its own plain transpose (real-symmetric), for every size, scale
and draw. -/
theorem gue_hermitian_goe_symmetric (n : ℕ) (sigma : ℝ)
    (drawC : Matrix (Fin n) (Fin n) ℂ) (drawR : Matrix (Fin n) (Fin n) ℝ) :
    (impl.random_gue n sigma drawC)ᴴ = impl.random_gue n sigma drawC ∧
    (impl.random_goe n sigma drawR)ᵀ = impl.random_goe n sigma drawR := by
  constructor
  · unfold impl.random_gue
    simp [Matrix.conjTranspose_smul, Matrix.conjTranspose_add,
      Matrix.conjTranspose_conjTranspose, add_comm, Complex.star_def, map_inv₀,
      Complex.conj_ofReal]
  · unfold impl.random_goe
    simp [Matrix.transpose_smul, Matrix.transpose_add, Matrix.transpose_transpose,
      add_comm]

/-- C3 (counterexample): the Wishart entry points do not reject a dtype
outside their realness family: `api.random_wre` passed a complex dtype and
`api.random_wce` passed a real dtype both succeed, forwarding the dtype
untouched. -/
theorem wishart_dtype_unchecked_counterexample :
    api.random_wre 2 1 none Dtype.complex128 none =
      Except.ok ⟨2, 1, none, Dtype.complex128, []⟩ ∧
    api.random_wce 2 1 none Dtype.float64 none =
      Except.ok ⟨2, 1, none, Dtype.float64, []⟩ :=
  ⟨rfl, rfl⟩

/-- C3 (amended): the circular, Gaussian and Jacobi entry points reject a
dtype outside their required realness family with `InvalidDtype` before
delegating, but the Wishart entry points (`random_wre`, `random_wce`) perform
no dtype check at all and succeed for any dtype. -/
theorem dtype_validation_per_entry_point :
    (∀ (size : ℤ) (d : Dtype) (bs : Option (List ℤ)), 1 ≤ size →
      d ∉ complex_dtypes →
      api.random_cue size d bs = Except.error ApiError.invalidDtype) ∧
    (∀ (size : ℤ) (d : Dtype) (bs : Option (List ℤ)), 1 ≤ size →
      d ∉ complex_dtypes →
      api.random_coe size d bs = Except.error ApiError.invalidDtype) ∧
    (∀ (size : ℤ) (s : ℚ) (d : Dtype) (bs : Option (List ℤ)), 1 ≤ size →
      d ∉ complex_dtypes →
      api.random_gue size s d bs = Except.error ApiError.invalidDtype) ∧
    (∀ (size : ℤ) (s : ℚ) (d : Dtype) (bs : Option (List ℤ)), 1 ≤ size →
      d ∉ real_dtypes →
      api.random_goe size s d bs = Except.error ApiError.invalidDtype) ∧
    (∀ (size_n : ℤ) (s : ℚ) (m : Option ℤ) (d : Dtype) (bs : Option (List ℤ)),
      1 ≤ size_n → 0 < s → (∀ v, m = some v → 1 ≤ v) →
      api.random_wre size_n s m d bs =
        Except.ok ⟨size_n, s, m, d, bs.getD []⟩) ∧
    (∀ (size_n : ℤ) (s : ℚ) (m : Option ℤ) (d : Dtype) (bs : Option (List ℤ)),
      1 ≤ size_n → 0 < s → (∀ v, m = some v → 1 ≤ v) →
      api.random_wce size_n s m d bs =
        Except.ok ⟨size_n, s, m, d, bs.getD []⟩) ∧
    (∀ (size_n : ℤ) (m1 m2 : Option ℤ) (d : Dtype) (bs : Option (List ℤ)),
      1 ≤ size_n → (∀ v, m1 = some v → 1 ≤ v) → (∀ v, m2 = some v → 1 ≤ v) →
      d ∉ real_dtypes →
      api.random_jre size_n m1 m2 d bs = Except.error ApiError.invalidDtype) ∧
    (∀ (size_n : ℤ) (m1 m2 : Option ℤ) (d : Dtype) (bs : Option (List ℤ)),
      1 ≤ size_n → (∀ v, m1 = some v → 1 ≤ v) → (∀ v, m2 = some v → 1 ≤ v) →
      d ∉ complex_dtypes →
      api.random_jce size_n m1 m2 d bs = Except.error ApiError.invalidDtype) := by
  refine ⟨?_, ?_, ?_, ?_, ?_, ?_, ?_, ?_⟩
  · intro size d bs h1 h2
    unfold api.random_cue
    rw [check_size_ok h1, check_dtype_err h2]
    rfl
  · intro size d bs h1 h2
    unfold api.random_coe
    rw [check_size_ok h1, check_dtype_err h2]
    rfl
  · intro size s d bs h1 h2
    unfold api.random_gue
    rw [check_size_ok h1, check_dtype_err h2]
    rfl
  · intro size s d bs h1 h2
    unfold api.random_goe
    rw [check_size_ok h1, check_dtype_err h2]
    rfl
  · intro sn s m d bs h1 h2 h3
    unfold api.random_wre
    rw [check_size_ok h1, check_sigma_ok h2, check_opt_size_ok h3]
    rfl
  · intro sn s m d bs h1 h2 h3
    unfold api.random_wce
    rw [check_size_ok h1, check_sigma_ok h2, check_opt_size_ok h3]
    rfl
  · intro sn m1 m2 d bs h1 h2 h3 h4
    unfold api.random_jre
    rw [check_size_ok h1, check_opt_size_ok h2, check_opt_size_ok h3,
      check_dtype_err h4]
    rfl
  · intro sn m1 m2 d bs h1 h2 h3 h4
    unfold api.random_jce
    rw [check_size_ok h1, check_opt_size_ok h2, check_opt_size_ok h3,
      check_dtype_err h4]
    rfl

/-- C3 (witness): the amended dtype-validation behavior at concrete inputs. -/
theorem dtype_validation_per_entry_point_witness :
    api.random_cue 1 Dtype.float64 none = Except.error ApiError.invalidDtype ∧
    api.random_coe 1 Dtype.float64 none = Except.error ApiError.invalidDtype ∧
    api.random_gue 1 1 Dtype.float32 none = Except.error ApiError.invalidDtype ∧
    api.random_goe 1 1 Dtype.complex64 none = Except.error ApiError.invalidDtype ∧
    api.random_wre 2 1 (some 3) Dtype.complex128 none =
      Except.ok ⟨2, 1, some 3, Dtype.complex128, []⟩ ∧
    api.random_wce 2 1 (some 3) Dtype.float32 none =
      Except.ok ⟨2, 1, some 3, Dtype.float32, []⟩ ∧
    api.random_jre 2 none (some 3) Dtype.complex128 none =
      Except.error ApiError.invalidDtype ∧
    api.random_jce 2 (some 3) none Dtype.float64 none =
      Except.error ApiError.invalidDtype := by
  obtain ⟨h1, h2, h3, h4, h5, h6, h7, h8⟩ := dtype_validation_per_entry_point
  have hm : ∀ v : ℤ, (some 3 : Option ℤ) = some v → 1 ≤ v := by
    intro v hv
    rw [Option.some_inj] at hv
    omega
  have hn : ∀ v : ℤ, (none : Option ℤ) = some v → 1 ≤ v := by
    intro v hv
    cases hv
  exact ⟨h1 1 Dtype.float64 none (by decide) (by decide),
    h2 1 Dtype.float64 none (by decide) (by decide),
    h3 1 1 Dtype.float32 none (by decide) (by decide),
    h4 1 1 Dtype.complex64 none (by decide) (by decide),
    h5 2 1 (some 3) Dtype.complex128 none (by decide) (by decide) hm,
    h6 2 1 (some 3) Dtype.float32 none (by decide) (by decide) hm,
    h7 2 none (some 3) Dtype.complex128 none (by decide) hn hm (by decide),
    h8 2 (some 3) none Dtype.float64 none (by decide) hm hn (by decide)⟩

/-- C4 (counterexample): with `size_m` omitted, the WRE facade forwards
`none` — not the primary dimension — to the constructor, and it is the
constructor-side resolution `size_m or size_n` that maps it to `size_n`. -/
theorem wre_default_forwarded_unresolved_counterexample :
    api.random_wre 3 1 none Dtype.float64 none =
      Except.ok ⟨3, 1, none, Dtype.float64, []⟩ ∧
    impl.actual_size none 3 = 3 :=
  ⟨rfl, rfl⟩

/-- C4 (amended): the facade validates a supplied secondary dimension but
forwards the optional value unresolved; the constructor alone applies the
`size_m or size_n` fallback (`None`, and the falsy `0`, resolve to `size_n`;
any other supplied value is kept), so the constructor — not the facade — is
the source of truth for the default. -/
theorem default_resolution_lives_in_constructor :
    (∀ (size_n : ℤ) (s : ℚ) (m : Option ℤ) (d : Dtype) (bs : Option (List ℤ)),
      1 ≤ size_n → 0 < s → (∀ v, m = some v → 1 ≤ v) →
      api.random_wre size_n s m d bs =
        Except.ok ⟨size_n, s, m, d, bs.getD []⟩) ∧
    (∀ (size_n : ℤ) (m1 m2 : Option ℤ) (d : Dtype) (bs : Option (List ℤ)),
      1 ≤ size_n → (∀ v, m1 = some v → 1 ≤ v) → (∀ v, m2 = some v → 1 ≤ v) →
      d ∈ real_dtypes →
      api.random_jre size_n m1 m2 d bs =
        Except.ok ⟨size_n, m1, m2, d, bs.getD []⟩) ∧
    (∀ n : ℕ, impl.actual_size none n = n) ∧
    (∀ m n : ℕ, m ≠ 0 → impl.actual_size (some m) n = m) ∧
    (∀ n : ℕ, impl.actual_size (some 0) n = n) ∧
    (∀ (n : ℕ) (sigma : ℝ) (draw : (m : ℕ) → Matrix (Fin n) (Fin m) ℝ),
      impl.random_wre n sigma none draw =
        (sigma • draw n) * (sigma • draw n)ᵀ) := by
  refine ⟨?_, ?_, fun n => rfl, ?_, fun n => rfl, fun n sigma draw => rfl⟩
  · intro sn s m d bs h1 h2 h3
    unfold api.random_wre
    rw [check_size_ok h1, check_sigma_ok h2, check_opt_size_ok h3]
    rfl
  · intro sn m1 m2 d bs h1 h2 h3 h4
    unfold api.random_jre
    rw [check_size_ok h1, check_opt_size_ok h2, check_opt_size_ok h3,
      check_dtype_ok h4]
    rfl
  · intro m n hm
    simp [impl.actual_size, hm]

/-- C4 (witness): the amended default-resolution behavior at concrete
inputs. -/
theorem default_resolution_lives_in_constructor_witness :
    api.random_wre 3 1 (some 5) Dtype.float64 none =
      Except.ok ⟨3, 1, some 5, Dtype.float64, []⟩ ∧
    impl.actual_size (some 5) 3 = 5 ∧
    impl.actual_size none 3 = 3 := by
  obtain ⟨h1, _, h3, h4, _, _⟩ := default_resolution_lives_in_constructor
  have hm : ∀ v : ℤ, (some 5 : Option ℤ) = some v → 1 ≤ v := by
    intro v hv
    rw [Option.some_inj] at hv
    omega
  exact ⟨h1 3 1 (some 5) Dtype.float64 none (by decide) (by decide) hm,
    h4 5 3 (by decide), h3 3⟩

/-- C5: when the inversion of `a2 = a1 + y yᵀ` (resp. `a1 + y yᴴ`) fails, the
Jacobi constructors surface the inversion-failure error of the linear-algebra
backend to the caller — the `NumericalInstability` condition of the spec's
taxonomy — which is a different error from every validation `ValueError`
(`InvalidDimension` included); no NaN-laden value is returned. -/
theorem jacobi_inversion_failure_surfaced (n : ℕ) (m1 m2 : Option ℕ)
    (dX dY : (m : ℕ) → Matrix (Fin n) (Fin m) ℝ)
    (dXc dYc : (m : ℕ) → Matrix (Fin n) (Fin m) ℂ)
    (hre : (impl.jre_a2 n m1 m2 dX dY).det = 0)
    (hce : (impl.jce_a2 n m1 m2 dXc dYc).det = 0) :
    impl.random_jre n m1 m2 dX dY = Except.error PyError.linAlgError ∧
    impl.random_jce n m1 m2 dXc dYc = Except.error PyError.linAlgError ∧
    ∀ e : ApiError, PyError.linAlgError ≠ PyError.valueError e := by
  refine ⟨?_, ?_, fun e h => by cases h⟩
  · unfold impl.random_jre impl.linalg_inv
    rw [if_pos hre]
    rfl
  · unfold impl.random_jce impl.linalg_inv
    rw [if_pos hce]
    rfl

/-- C5 (witness): with all-zero draws of shape 1 × 1, `a2` is singular and
both Jacobi constructors surface the inversion-failure error. -/
theorem jacobi_inversion_failure_surfaced_witness :
    impl.random_jre 1 (some 1) (some 1) (fun _ => 0) (fun _ => 0) =
      Except.error PyError.linAlgError ∧
    impl.random_jce 1 (some 1) (some 1) (fun _ => 0) (fun _ => 0) =
      Except.error PyError.linAlgError ∧
    ∀ e : ApiError, PyError.linAlgError ≠ PyError.valueError e :=
  jacobi_inversion_failure_surfaced 1 (some 1) (some 1)
    (fun _ => 0) (fun _ => 0) (fun _ => 0) (fun _ => 0)
    (by simp [impl.jre_a2, impl.jre_a1, impl.actual_size, Matrix.det_fin_one])
    (by simp [impl.jce_a2, impl.jce_a1, impl.actual_size, Matrix.det_fin_one])

/-- C6 (counterexample): the primitive Ginibre generators perform no size
validation: at size `0` the sampler is invoked and an (empty-shaped) draw
succeeds with no error at all, and at size `-1` the failure is the external
sampler's runtime error, not an `InvalidDimension` validation error. -/
theorem primitive_generators_skip_validation_counterexample :
    impl.random_gre_shape 0 [] = Except.ok [0, 0] ∧
    impl.random_gre_shape (-1) [] = Except.error PyError.runtimeError ∧
    impl.random_gce_shape 0 [] = Except.ok [0, 0] ∧
    PyError.runtimeError ≠ PyError.valueError ApiError.invalidDimension := by
  refine ⟨rfl, rfl, rfl, by decide⟩

/-- C6 (amended): every public facade entry point rejects `size < 1` with
`InvalidDimension` before delegating to the sampling layer, but the primitive
Ginibre generators themselves validate nothing: every nonnegative size —
`0` included — is handed to the external sampler and the call succeeds. -/
theorem facade_rejects_small_size (size : ℤ) (hsz : size < 1) :
    (∀ d bs, api.random_cue size d bs = Except.error ApiError.invalidDimension) ∧
    (∀ d bs, api.random_coe size d bs = Except.error ApiError.invalidDimension) ∧
    (∀ s d bs, api.random_gue size s d bs = Except.error ApiError.invalidDimension) ∧
    (∀ s d bs, api.random_goe size s d bs = Except.error ApiError.invalidDimension) ∧
    (∀ s m d bs, api.random_wre size s m d bs = Except.error ApiError.invalidDimension) ∧
    (∀ s m d bs, api.random_wce size s m d bs = Except.error ApiError.invalidDimension) ∧
    (∀ m1 m2 d bs, api.random_jre size m1 m2 d bs = Except.error ApiError.invalidDimension) ∧
    (∀ m1 m2 d bs, api.random_jce size m1 m2 d bs = Except.error ApiError.invalidDimension) ∧
    (∀ (s : ℤ) (bs : List ℤ), 0 ≤ s → bs.all (fun v => decide (0 ≤ v)) = true →
      impl.random_gre_shape s bs = Except.ok (bs ++ [s, s])) ∧
    (∀ (s : ℤ) (bs : List ℤ), 0 ≤ s → bs.all (fun v => decide (0 ≤ v)) = true →
      impl.random_gce_shape s bs = Except.ok (bs ++ [s, s])) := by
  refine ⟨fun d bs => ?_, fun d bs => ?_, fun s d bs => ?_, fun s d bs => ?_,
    fun s m d bs => ?_, fun s m d bs => ?_, fun m1 m2 d bs => ?_,
    fun m1 m2 d bs => ?_, fun s bs h1 h2 => ?_, fun s bs h1 h2 => ?_⟩
  · unfold api.random_cue
    rw [check_size_err hsz]
    rfl
  · unfold api.random_coe
    rw [check_size_err hsz]
    rfl
  · unfold api.random_gue
    rw [check_size_err hsz]
    rfl
  · unfold api.random_goe
    rw [check_size_err hsz]
    rfl
  · unfold api.random_wre
    rw [check_size_err hsz]
    rfl
  · unfold api.random_wce
    rw [check_size_err hsz]
    rfl
  · unfold api.random_jre
    rw [check_size_err hsz]
    rfl
  · unfold api.random_jce
    rw [check_size_err hsz]
    rfl
  · simp [impl.random_gre_shape, impl.randn_ok, List.all_append, h2, h1]
  · simp [impl.random_gce_shape, impl.randn_ok, List.all_append, h2, h1]

/-- C6 (witness): the amended behavior at size `0`: every facade entry point
rejects it, while the primitive generator hands the degenerate shape straight
to the sampler, with success. -/
theorem facade_rejects_small_size_witness :
    api.random_cue 0 Dtype.complex128 none = Except.error ApiError.invalidDimension ∧
    api.random_wre 0 1 none Dtype.float64 none = Except.error ApiError.invalidDimension ∧
    impl.random_gre_shape 0 [2] = Except.ok [2, 0, 0] := by
  obtain ⟨h1, _, _, _, h5, _, _, _, h9, _⟩ := facade_rejects_small_size 0 (by decide)
  exact ⟨h1 Dtype.complex128 none, h5 1 none Dtype.float64 none,
    h9 0 [2] (by decide) (by decide)⟩

/-- C10: no public entry point validates the entries of `batch_shape`: for any
batch shape — one containing zeros or negative integers included — the facade
succeeds (no `InvalidDimension`) and forwards the batch shape unchanged in the
arguments of its call to the underlying sampler. -/
theorem batch_shape_entries_unvalidated (bs : List ℤ)
    (hbad : bs.any (fun b => decide (b ≤ 0)) = true) :
    (∀ size d, 1 ≤ size → d ∈ complex_dtypes →
      api.random_cue size d (some bs) = Except.ok ⟨size, d, bs⟩ ∧
      api.random_coe size d (some bs) = Except.ok ⟨size, d, bs⟩) ∧
    (∀ (size : ℤ) (s : ℚ) d, 1 ≤ size → 0 < s → d ∈ complex_dtypes →
      api.random_gue size s d (some bs) = Except.ok ⟨size, s, d, bs⟩) ∧
    (∀ (size : ℤ) (s : ℚ) d, 1 ≤ size → 0 < s → d ∈ real_dtypes →
      api.random_goe size s d (some bs) = Except.ok ⟨size, s, d, bs⟩) ∧
    (∀ (size : ℤ) (s : ℚ) d, 1 ≤ size → 0 < s →
      api.random_wre size s none d (some bs) = Except.ok ⟨size, s, none, d, bs⟩ ∧
      api.random_wce size s none d (some bs) = Except.ok ⟨size, s, none, d, bs⟩) ∧
    (∀ size d, 1 ≤ size → d ∈ real_dtypes →
      api.random_jre size none none d (some bs) =
        Except.ok ⟨size, none, none, d, bs⟩) ∧
    (∀ size d, 1 ≤ size → d ∈ complex_dtypes →
      api.random_jce size none none d (some bs) =
        Except.ok ⟨size, none, none, d, bs⟩) := by
  refine ⟨fun size d h1 h2 => ⟨?_, ?_⟩, fun size s d h1 h2 h3 => ?_,
    fun size s d h1 h2 h3 => ?_, fun size s d h1 h2 => ⟨?_, ?_⟩,
    fun size d h1 h2 => ?_, fun size d h1 h2 => ?_⟩
  · unfold api.random_cue
    rw [check_size_ok h1, check_dtype_ok h2]
    rfl
  · unfold api.random_coe
    rw [check_size_ok h1, check_dtype_ok h2]
    rfl
  · unfold api.random_gue
    rw [check_size_ok h1, check_dtype_ok h3, check_sigma_ok h2]
    rfl
  · unfold api.random_goe
    rw [check_size_ok h1, check_dtype_ok h3, check_sigma_ok h2]
    rfl
  · unfold api.random_wre
    rw [check_size_ok h1, check_sigma_ok h2]
    rfl
  · unfold api.random_wce
    rw [check_size_ok h1, check_sigma_ok h2]
    rfl
  · unfold api.random_jre
    rw [check_size_ok h1, check_dtype_ok h2]
    rfl
  · unfold api.random_jce
    rw [check_size_ok h1, check_dtype_ok h2]
    rfl

/-- C10 (witness): the batch shape `[0, -1]` — a zero and a negative entry —
passes every check and is forwarded verbatim. -/
theorem batch_shape_entries_unvalidated_witness :
    api.random_cue 2 Dtype.complex128 (some [0, -1]) =
      Except.ok ⟨2, Dtype.complex128, [0, -1]⟩ ∧
    api.random_jre 2 none none Dtype.float64 (some [0, -1]) =
      Except.ok ⟨2, none, none, Dtype.float64, [0, -1]⟩ := by
  obtain ⟨h1, _, _, _, h5, _⟩ := batch_shape_entries_unvalidated [0, -1] (by decide)
  exact ⟨(h1 2 Dtype.complex128 (by decide) (by decide)).1,
    h5 2 Dtype.float64 (by decide) (by decide)⟩

end Thrmt
